import Mathlib

/-!
Verification of the TFTP implementation in tftp_common.hpp, tftp_client.cpp
and tftp_server.cpp.  Bytes are modelled as natural numbers (values < 256 on
real wires), byte buffers as lists of naturals, and the 16-bit wire fields
through explicit base-256 arithmetic.  Each definition mirrors one function
or control-flow region of the C++ source.
-/

/-! ## Constants (tftp_common.hpp) -/

def TFTP_OPCODE_RRQ : Nat := 1
def TFTP_OPCODE_WRQ : Nat := 2
def TFTP_OPCODE_DATA : Nat := 3
def TFTP_OPCODE_ACK : Nat := 4
def TFTP_OPCODE_ERROR : Nat := 5

def TFTP_ERROR_ACCESS_VIOLATION : Nat := 2
def TFTP_ERROR_DISK_FULL : Nat := 3
def TFTP_ERROR_ILLEGAL_OPERATION : Nat := 4
def TFTP_ERROR_UNKNOWN_TRANSFER_ID : Nat := 5
def TFTP_ERROR_FILE_ALREADY_EXISTS : Nat := 6

def MAX_DATA_SIZE : Nat := 512
def DATA_HEADER_SIZE : Nat := 4
def ACK_PACKET_SIZE : Nat := 4
def ERROR_HEADER_SIZE : Nat := 4
def MAX_RETRIES : Nat := 5

/-- Bytes of an ASCII string literal used by the C++ code. -/
def strBytes (s : String) : List Nat := s.toList.map Char.toNat

/-- Big-endian bytes of a 16-bit value, as produced by htons plus memcpy.
A larger argument is truncated exactly as the uint16_t parameter would be. -/
def u16be (n : Nat) : List Nat := [n / 256 % 256, n % 256]

/-- Read a 16-bit big-endian value from the first two bytes, as done by
memcpy of two bytes followed by ntohs. -/
def readU16 : List Nat → Nat
  | b0 :: b1 :: _ => b0 * 256 + b1
  | _ => 0

/-! ## Packet creation (tftp_common.hpp, lines 93-158) -/

def create_rrq_packet (filename mode : List Nat) : List Nat :=
  u16be TFTP_OPCODE_RRQ ++ filename ++ [0] ++ mode ++ [0]

def create_wrq_packet (filename mode : List Nat) : List Nat :=
  u16be TFTP_OPCODE_WRQ ++ filename ++ [0] ++ mode ++ [0]

/-- create_data_packet throws std::length_error when the payload exceeds
MAX_DATA_SIZE; the throwing path is modelled as none. -/
def create_data_packet (block : Nat) (data : List Nat) : Option (List Nat) :=
  if data.length > MAX_DATA_SIZE then none
  else some (u16be TFTP_OPCODE_DATA ++ u16be block ++ data)

def create_ack_packet (block : Nat) : List Nat :=
  u16be TFTP_OPCODE_ACK ++ u16be block

def create_error_packet (code : Nat) (msg : List Nat) : List Nat :=
  u16be TFTP_OPCODE_ERROR ++ u16be code ++ msg ++ [0]

/-! ## Packet parsing (tftp_common.hpp, lines 160-264) -/

/-- get_opcode: a buffer shorter than two bytes yields 0 (invalid), otherwise
the first two bytes are read big-endian. -/
def get_opcode (buffer : List Nat) : Nat :=
  match buffer with
  | b0 :: b1 :: _ => b0 * 256 + b1
  | _ => 0

/-- memchr for the zero byte: the bytes strictly before the first zero, or
none when no zero byte occurs. -/
def takeUntilZero : List Nat → Option (List Nat)
  | [] => none
  | b :: bs => if b = 0 then some [] else (takeUntilZero bs).map (b :: ·)

def parse_ack_packet (buffer : List Nat) : Option Nat :=
  if buffer.length = ACK_PACKET_SIZE ∧ get_opcode buffer = TFTP_OPCODE_ACK then
    some (readU16 (buffer.drop 2))
  else none

/-- parse_data_packet checks only a minimum size of four bytes and the
opcode; the payload is everything after the four-byte header, with no upper
bound on its length. -/
def parse_data_packet (buffer : List Nat) : Option (Nat × List Nat) :=
  if buffer.length < DATA_HEADER_SIZE ∨ get_opcode buffer ≠ TFTP_OPCODE_DATA then none
  else some (readU16 (buffer.drop 2), buffer.drop DATA_HEADER_SIZE)

/-- The fixed text parse_error_packet substitutes for the message when the
error packet carries no zero terminator. -/
def malformed_error_msg : List Nat := strBytes "Malformed error packet received"

def parse_error_packet (buffer : List Nat) : Option (Nat × List Nat) :=
  if buffer.length < ERROR_HEADER_SIZE + 1 ∨ get_opcode buffer ≠ TFTP_OPCODE_ERROR then none
  else
    match takeUntilZero (buffer.drop ERROR_HEADER_SIZE) with
    | none => some (readU16 (buffer.drop 2), malformed_error_msg)
    | some msg => some (readU16 (buffer.drop 2), msg)

/-- parse_request_packet for RRQ and WRQ buffers: opcode 1 or 2, minimum
size 6, a non-empty zero-terminated filename followed by a non-empty
zero-terminated mode; trailing bytes after the mode terminator are
tolerated. -/
def parse_request_packet (buffer : List Nat) : Option (List Nat × List Nat) :=
  if get_opcode buffer ≠ TFTP_OPCODE_RRQ ∧ get_opcode buffer ≠ TFTP_OPCODE_WRQ then none
  else if buffer.length < 6 then none
  else
    match takeUntilZero (buffer.drop 2) with
    | none => none
    | some filename =>
      if filename = [] then none
      else if (buffer.drop 2).drop (filename.length + 1) = [] then none
      else
        match takeUntilZero ((buffer.drop 2).drop (filename.length + 1)) with
        | none => none
        | some mode => if mode = [] then none else some (filename, mode)

/-! ## Typed packets and the composed codec -/

inductive Packet where
  | rrq (filename mode : List Nat)
  | wrq (filename mode : List Nat)
  | data (block : Nat) (payload : List Nat)
  | ack (block : Nat)
  | error (code : Nat) (msg : List Nat)
deriving DecidableEq

/-- A string carried on the wire: non-zero bytes only. -/
def zeroFreeBytes (s : List Nat) : Prop := ∀ b ∈ s, 0 < b ∧ b < 256

instance (s : List Nat) : Decidable (zeroFreeBytes s) := by
  unfold zeroFreeBytes; infer_instance

/-- Validity of a typed packet, from the data-model invariants: non-empty
zero-free request strings, 16-bit block and code fields, payload at most
512 bytes. -/
def Packet.valid : Packet → Prop
  | .rrq f m => f ≠ [] ∧ m ≠ [] ∧ zeroFreeBytes f ∧ zeroFreeBytes m
  | .wrq f m => f ≠ [] ∧ m ≠ [] ∧ zeroFreeBytes f ∧ zeroFreeBytes m
  | .data b p => b < 65536 ∧ p.length ≤ MAX_DATA_SIZE ∧ ∀ x ∈ p, x < 256
  | .ack b => b < 65536
  | .error c msg => c < 65536 ∧ zeroFreeBytes msg

instance (p : Packet) : Decidable p.valid := by
  cases p <;> (unfold Packet.valid; infer_instance)

/-- Encoding dispatch over the creation functions; only the Data case can
fail (payload too long). -/
def Packet.encode : Packet → Option (List Nat)
  | .rrq f m => some (create_rrq_packet f m)
  | .wrq f m => some (create_wrq_packet f m)
  | .data b p => create_data_packet b p
  | .ack b => some (create_ack_packet b)
  | .error c m => some (create_error_packet c m)

/-- Parsing dispatch, as the receivers do it: inspect get_opcode and apply
the matching parse function. -/
def parse (buffer : List Nat) : Option Packet :=
  if get_opcode buffer = TFTP_OPCODE_RRQ then
    (parse_request_packet buffer).map (fun fm => .rrq fm.1 fm.2)
  else if get_opcode buffer = TFTP_OPCODE_WRQ then
    (parse_request_packet buffer).map (fun fm => .wrq fm.1 fm.2)
  else if get_opcode buffer = TFTP_OPCODE_DATA then
    (parse_data_packet buffer).map (fun bd => .data bd.1 bd.2)
  else if get_opcode buffer = TFTP_OPCODE_ACK then
    (parse_ack_packet buffer).map (fun b => .ack b)
  else if get_opcode buffer = TFTP_OPCODE_ERROR then
    (parse_error_packet buffer).map (fun ce => .error ce.1 ce.2)
  else none

/-! ## Codec lemmas -/

theorem u16be_readU16 (n : Nat) (h : n < 65536) (rest : List Nat) :
    readU16 (u16be n ++ rest) = n := by
  have h2 : n / 256 < 256 := by omega
  simp [u16be, readU16, Nat.mod_eq_of_lt h2]
  omega

theorem takeUntilZero_append (s rest : List Nat) (h : ∀ b ∈ s, b ≠ 0) :
    takeUntilZero (s ++ 0 :: rest) = some s := by
  induction s with
  | nil => simp [takeUntilZero]
  | cons a t ih =>
    have ha : a ≠ 0 := h a (by simp)
    have iht := ih (fun b hb => h b (by simp [hb]))
    simp [takeUntilZero, ha, iht]

theorem drop_past_zero (f t : List Nat) : (f ++ 0 :: t).drop (f.length + 1) = t := by
  induction f with
  | nil => simp
  | cons a f ih =>
    simp only [List.cons_append, List.length_cons, List.drop_succ_cons]
    exact ih

theorem parse_request_eval_rrq (f m : List Nat)
    (hf : f ≠ []) (hm : m ≠ []) (hfz : ∀ b ∈ f, b ≠ 0) (hmz : ∀ b ∈ m, b ≠ 0) :
    parse_request_packet (0 :: 1 :: (f ++ 0 :: (m ++ [0]))) = some (f, m) := by
  have hlenf : 0 < f.length := List.length_pos.mpr hf
  have hlenm : 0 < m.length := List.length_pos.mpr hm
  have h1 : takeUntilZero (f ++ 0 :: (m ++ [0])) = some f :=
    takeUntilZero_append f (m ++ [0]) hfz
  have h2 : (f ++ 0 :: (m ++ [0])).drop (f.length + 1) = m ++ [0] :=
    drop_past_zero f (m ++ [0])
  have h3 : takeUntilZero (m ++ [0]) = some m := takeUntilZero_append m [] hmz
  have hops : ¬(get_opcode (0 :: 1 :: (f ++ 0 :: (m ++ [0]))) ≠ TFTP_OPCODE_RRQ ∧
      get_opcode (0 :: 1 :: (f ++ 0 :: (m ++ [0]))) ≠ TFTP_OPCODE_WRQ) := by
    simp [get_opcode, TFTP_OPCODE_RRQ]
  have hlen : ¬(0 :: 1 :: (f ++ 0 :: (m ++ [0]))).length < 6 := by
    simp
    omega
  unfold parse_request_packet
  rw [if_neg hops, if_neg hlen]
  simp only [List.drop_succ_cons, List.drop_zero, h1, h2, h3]
  simp [hf, hm]

theorem parse_request_eval_wrq (f m : List Nat)
    (hf : f ≠ []) (hm : m ≠ []) (hfz : ∀ b ∈ f, b ≠ 0) (hmz : ∀ b ∈ m, b ≠ 0) :
    parse_request_packet (0 :: 2 :: (f ++ 0 :: (m ++ [0]))) = some (f, m) := by
  have hlenf : 0 < f.length := List.length_pos.mpr hf
  have hlenm : 0 < m.length := List.length_pos.mpr hm
  have h1 : takeUntilZero (f ++ 0 :: (m ++ [0])) = some f :=
    takeUntilZero_append f (m ++ [0]) hfz
  have h2 : (f ++ 0 :: (m ++ [0])).drop (f.length + 1) = m ++ [0] :=
    drop_past_zero f (m ++ [0])
  have h3 : takeUntilZero (m ++ [0]) = some m := takeUntilZero_append m [] hmz
  have hops : ¬(get_opcode (0 :: 2 :: (f ++ 0 :: (m ++ [0]))) ≠ TFTP_OPCODE_RRQ ∧
      get_opcode (0 :: 2 :: (f ++ 0 :: (m ++ [0]))) ≠ TFTP_OPCODE_WRQ) := by
    simp [get_opcode, TFTP_OPCODE_WRQ]
  have hlen : ¬(0 :: 2 :: (f ++ 0 :: (m ++ [0]))).length < 6 := by
    simp
    omega
  unfold parse_request_packet
  rw [if_neg hops, if_neg hlen]
  simp only [List.drop_succ_cons, List.drop_zero, h1, h2, h3]
  simp [hf, hm]

theorem drop_two_u16be (n : Nat) (rest : List Nat) : (u16be n ++ rest).drop 2 = rest := by
  simp [u16be]

/-- C3: for every valid Packet P, parsing the bytes produced by the
corresponding encode operation yields P again: parse (encode P) = P. -/
theorem C3_parse_encode_roundtrip (p : Packet) (hv : p.valid) :
    (Packet.encode p).bind parse = some p := by
  cases p with
  | rrq f m =>
    obtain ⟨hf, hm, hfz, hmz⟩ := hv
    have hfz' : ∀ b ∈ f, b ≠ 0 := fun b hb => by have := (hfz b hb).1; omega
    have hmz' : ∀ b ∈ m, b ≠ 0 := fun b hb => by have := (hmz b hb).1; omega
    have hshape : create_rrq_packet f m = 0 :: 1 :: (f ++ 0 :: (m ++ [0])) := by
      simp [create_rrq_packet, u16be, TFTP_OPCODE_RRQ]
    have hop : get_opcode (0 :: 1 :: (f ++ 0 :: (m ++ [0]))) = TFTP_OPCODE_RRQ := by
      simp [get_opcode, TFTP_OPCODE_RRQ]
    show (parse (create_rrq_packet f m)) = some (.rrq f m)
    rw [hshape]
    unfold parse
    rw [if_pos hop, parse_request_eval_rrq f m hf hm hfz' hmz']
    rfl
  | wrq f m =>
    obtain ⟨hf, hm, hfz, hmz⟩ := hv
    have hfz' : ∀ b ∈ f, b ≠ 0 := fun b hb => by have := (hfz b hb).1; omega
    have hmz' : ∀ b ∈ m, b ≠ 0 := fun b hb => by have := (hmz b hb).1; omega
    have hshape : create_wrq_packet f m = 0 :: 2 :: (f ++ 0 :: (m ++ [0])) := by
      simp [create_wrq_packet, u16be, TFTP_OPCODE_WRQ]
    have hop : get_opcode (0 :: 2 :: (f ++ 0 :: (m ++ [0]))) = TFTP_OPCODE_WRQ := by
      simp [get_opcode, TFTP_OPCODE_WRQ]
    show (parse (create_wrq_packet f m)) = some (.wrq f m)
    rw [hshape]
    unfold parse
    rw [if_neg (by rw [hop]; simp [TFTP_OPCODE_RRQ, TFTP_OPCODE_WRQ]),
      if_pos hop, parse_request_eval_wrq f m hf hm hfz' hmz']
    rfl
  | data b pl =>
    obtain ⟨hb, hlen, _⟩ := hv
    have hgt : ¬ pl.length > MAX_DATA_SIZE := by omega
    have hshape : Packet.encode (.data b pl) = some (0 :: 3 :: (u16be b ++ pl)) := by
      simp [Packet.encode, create_data_packet, hgt, u16be, TFTP_OPCODE_DATA]
    rw [hshape]
    have hop : get_opcode (0 :: 3 :: (u16be b ++ pl)) = TFTP_OPCODE_DATA := by
      simp [get_opcode, TFTP_OPCODE_DATA]
    have hpd : parse_data_packet (0 :: 3 :: (u16be b ++ pl)) = some (b, pl) := by
      unfold parse_data_packet
      rw [if_neg]
      · have hd2 : (0 :: 3 :: (u16be b ++ pl)).drop 2 = u16be b ++ pl := rfl
        have hd4 : (0 :: 3 :: (u16be b ++ pl)).drop DATA_HEADER_SIZE = pl := by
          show (u16be b ++ pl).drop 2 = pl
          exact drop_two_u16be b pl
        rw [hd2, hd4, u16be_readU16 b hb pl]
      · push_neg
        constructor
        · simp [u16be, DATA_HEADER_SIZE]
        · exact hop
    show parse (0 :: 3 :: (u16be b ++ pl)) = some (.data b pl)
    unfold parse
    rw [if_neg (by rw [hop]; simp [TFTP_OPCODE_RRQ, TFTP_OPCODE_DATA]),
      if_neg (by rw [hop]; simp [TFTP_OPCODE_WRQ, TFTP_OPCODE_DATA]),
      if_pos hop, hpd]
    rfl
  | ack b =>
    have hb : b < 65536 := hv
    have hshape : Packet.encode (.ack b) = some (0 :: 4 :: u16be b) := by
      simp [Packet.encode, create_ack_packet, u16be, TFTP_OPCODE_ACK]
    rw [hshape]
    have hop : get_opcode (0 :: 4 :: u16be b) = TFTP_OPCODE_ACK := by
      simp [get_opcode, TFTP_OPCODE_ACK]
    have hpa : parse_ack_packet (0 :: 4 :: u16be b) = some b := by
      unfold parse_ack_packet
      rw [if_pos]
      · have hd2 : (0 :: 4 :: u16be b).drop 2 = u16be b := rfl
        rw [hd2, show u16be b = u16be b ++ [] by simp, u16be_readU16 b hb []]
      · exact ⟨by simp [u16be, ACK_PACKET_SIZE], hop⟩
    show parse (0 :: 4 :: u16be b) = some (.ack b)
    unfold parse
    rw [if_neg (by rw [hop]; simp [TFTP_OPCODE_RRQ, TFTP_OPCODE_ACK]),
      if_neg (by rw [hop]; simp [TFTP_OPCODE_WRQ, TFTP_OPCODE_ACK]),
      if_neg (by rw [hop]; simp [TFTP_OPCODE_DATA, TFTP_OPCODE_ACK]),
      if_pos hop, hpa]
    rfl
  | error c msg =>
    obtain ⟨hc, hmsgz⟩ := hv
    have hmz' : ∀ b ∈ msg, b ≠ 0 := fun b hb => by have := (hmsgz b hb).1; omega
    have hshape : Packet.encode (.error c msg) =
        some (0 :: 5 :: (u16be c ++ (msg ++ [0]))) := by
      simp [Packet.encode, create_error_packet, u16be, TFTP_OPCODE_ERROR]
    rw [hshape]
    have hop : get_opcode (0 :: 5 :: (u16be c ++ (msg ++ [0]))) = TFTP_OPCODE_ERROR := by
      simp [get_opcode, TFTP_OPCODE_ERROR]
    have hpe : parse_error_packet (0 :: 5 :: (u16be c ++ (msg ++ [0]))) = some (c, msg) := by
      unfold parse_error_packet
      rw [if_neg]
      · have hd2 : (0 :: 5 :: (u16be c ++ (msg ++ [0]))).drop 2 = u16be c ++ (msg ++ [0]) := rfl
        have hd4 : (0 :: 5 :: (u16be c ++ (msg ++ [0]))).drop ERROR_HEADER_SIZE = msg ++ [0] := by
          show (u16be c ++ (msg ++ [0])).drop 2 = msg ++ [0]
          exact drop_two_u16be c (msg ++ [0])
        rw [hd4, show msg ++ [0] = msg ++ 0 :: [] from rfl, takeUntilZero_append msg [] hmz',
          hd2, u16be_readU16 c hc (msg ++ [0])]
      · push_neg
        constructor
        · simp [u16be, ERROR_HEADER_SIZE]
        · exact hop
    show parse (0 :: 5 :: (u16be c ++ (msg ++ [0]))) = some (.error c msg)
    unfold parse
    rw [if_neg (by rw [hop]; simp [TFTP_OPCODE_RRQ, TFTP_OPCODE_ERROR]),
      if_neg (by rw [hop]; simp [TFTP_OPCODE_WRQ, TFTP_OPCODE_ERROR]),
      if_neg (by rw [hop]; simp [TFTP_OPCODE_DATA, TFTP_OPCODE_ERROR]),
      if_neg (by rw [hop]; simp [TFTP_OPCODE_ACK, TFTP_OPCODE_ERROR]),
      if_pos hop, hpe]
    rfl

/-- Witness for C3 at a concrete valid packet. -/
theorem C3_witness :
    (Packet.valid (.rrq (strBytes "a") (strBytes "octet"))) ∧
    (Packet.encode (.rrq (strBytes "a") (strBytes "octet"))).bind parse =
      some (.rrq (strBytes "a") (strBytes "octet")) :=
  ⟨by decide, C3_parse_encode_roundtrip _ (by decide)⟩

/-! ## Sender-side block sequence (client send_file loop, server
handle_read_request do-while loop).  Each iteration reads up to 512 bytes,
emits them as the next Data block, and the loop continues exactly when the
chunk read was full (bytes_read == MAX_DATA_SIZE), so a file whose length
is a multiple of 512 ends with an explicit empty block. -/

def send_file_blocks (file : List Nat) : List (List Nat) :=
  if file.length < MAX_DATA_SIZE then [file]
  else file.take MAX_DATA_SIZE :: send_file_blocks (file.drop MAX_DATA_SIZE)
termination_by file.length
decreasing_by
  simp only [List.length_drop]
  simp only [MAX_DATA_SIZE] at *
  omega

theorem send_file_blocks_ne_nil (file : List Nat) : send_file_blocks file ≠ [] := by
  unfold send_file_blocks
  split <;> simp

theorem send_file_blocks_nil : send_file_blocks [] = [[]] := by
  rw [send_file_blocks]
  norm_num [MAX_DATA_SIZE]

/-- C5: when the file length is an exact multiple of 512 the sender emits
one full 512-byte Data block per 512 bytes followed by a terminating
zero-length block; in particular a 512-byte file yields exactly the full
block and the empty block. -/
theorem C5_multiple_of_512_terminating_empty_block (file : List Nat) (k : Nat)
    (hk : file.length = MAX_DATA_SIZE * k) :
    (send_file_blocks file).length = k + 1 ∧
    (send_file_blocks file).getLast? = some [] ∧
    (∀ b ∈ (send_file_blocks file).dropLast, b.length = MAX_DATA_SIZE) ∧
    (file.length = MAX_DATA_SIZE → send_file_blocks file = [file, []]) := by
  induction k generalizing file with
  | zero =>
    have hnil : file = [] := List.length_eq_zero.mp (by simpa using hk)
    subst hnil
    refine ⟨?_, ?_, ?_, ?_⟩ <;> simp [send_file_blocks, MAX_DATA_SIZE]
  | succ n ih =>
    have hge : ¬ file.length < MAX_DATA_SIZE := by
      simp only [MAX_DATA_SIZE] at *
      omega
    have hdrop : (file.drop MAX_DATA_SIZE).length = MAX_DATA_SIZE * n := by
      simp only [List.length_drop, MAX_DATA_SIZE] at *
      omega
    obtain ⟨ih1, ih2, ih3, _⟩ := ih (file.drop MAX_DATA_SIZE) hdrop
    have hne := send_file_blocks_ne_nil (file.drop MAX_DATA_SIZE)
    have heq : send_file_blocks file =
        file.take MAX_DATA_SIZE :: send_file_blocks (file.drop MAX_DATA_SIZE) := by
      rw [send_file_blocks]
      rw [if_neg hge]
    have htake : (file.take MAX_DATA_SIZE).length = MAX_DATA_SIZE := by
      simp only [List.length_take, MAX_DATA_SIZE] at *
      omega
    refine ⟨?_, ?_, ?_, ?_⟩
    · rw [heq]
      simp [ih1]
    · obtain ⟨hd, tl, hcons⟩ := List.exists_cons_of_ne_nil hne
      rw [heq, hcons, List.getLast?_cons_cons, ← hcons]
      exact ih2
    · intro b hb
      rw [heq, List.dropLast_cons_of_ne_nil hne] at hb
      rcases List.mem_cons.mp hb with h | h
      · rw [h]; exact htake
      · exact ih3 b h
    · intro h512
      have hn0 : n = 0 := by
        simp only [MAX_DATA_SIZE] at *
        omega
      subst hn0
      have hdnil : file.drop MAX_DATA_SIZE = [] :=
        List.length_eq_zero.mp (by simpa using hdrop)
      have htakeall : file.take MAX_DATA_SIZE = file := by
        apply List.take_of_length_le
        omega
      rw [heq, hdnil, htakeall, send_file_blocks_nil]

/-- Witness for C5 at a concrete 512-byte file. -/
theorem C5_witness :
    (List.replicate 512 (170 : Nat)).length = MAX_DATA_SIZE * 1 ∧
    ((send_file_blocks (List.replicate 512 (170 : Nat))).length = 1 + 1 ∧
     (send_file_blocks (List.replicate 512 (170 : Nat))).getLast? = some [] ∧
     (∀ b ∈ (send_file_blocks (List.replicate 512 (170 : Nat))).dropLast,
        b.length = MAX_DATA_SIZE) ∧
     ((List.replicate 512 (170 : Nat)).length = MAX_DATA_SIZE →
        send_file_blocks (List.replicate 512 (170 : Nat)) =
          [List.replicate 512 (170 : Nat), []])) :=
  ⟨by rw [List.length_replicate]; rfl,
   C5_multiple_of_512_terminating_empty_block _ 1 (by rw [List.length_replicate]; rfl)⟩

/-! ## C6: payload bound enforced on send only -/

set_option maxRecDepth 4096 in
/-- C6 counterexample: a Data buffer with a 513-byte payload is accepted by
parse_data_packet, so a received payload longer than 512 bytes is not
rejected as malformed. -/
theorem C6_counterexample :
    parse_data_packet (0 :: 3 :: 0 :: 1 :: List.replicate 513 7) =
      some (1, List.replicate 513 7) ∧
    MAX_DATA_SIZE < (List.replicate 513 (7 : Nat)).length := by
  constructor
  · unfold parse_data_packet
    rw [if_neg]
    · rfl
    · push_neg
      refine ⟨?_, by simp [get_opcode, TFTP_OPCODE_DATA]⟩
      simp [DATA_HEADER_SIZE]
  · simp [MAX_DATA_SIZE]

/-- C6 amended: the 512-byte payload limit is enforced only on send,
where create_data_packet fails exactly when the payload exceeds 512 bytes;
the receive parser accepts a Data buffer of any payload length, with no
upper bound. -/
theorem C6_amended_send_only_bound :
    (∀ b d, (create_data_packet b d).isSome ↔ d.length ≤ MAX_DATA_SIZE) ∧
    (∀ hi lo payload, parse_data_packet (0 :: 3 :: hi :: lo :: payload) =
      some (hi * 256 + lo, payload)) := by
  constructor
  · intro b d
    unfold create_data_packet
    split <;> simp <;> omega
  · intro hi lo payload
    unfold parse_data_packet
    rw [if_neg]
    · rfl
    · push_neg
      refine ⟨?_, by simp [get_opcode, TFTP_OPCODE_DATA]⟩
      simp [DATA_HEADER_SIZE]

/-! ## C7: unterminated error message -/

theorem takeUntilZero_eq_none (s : List Nat) (h : ∀ b ∈ s, b ≠ 0) :
    takeUntilZero s = none := by
  induction s with
  | nil => rfl
  | cons a t ih =>
    have ha : a ≠ 0 := h a (by simp)
    simp [takeUntilZero, ha, ih (fun b hb => h b (by simp [hb]))]

/-- C7 counterexample: for an Error buffer without a zero terminator the
parser substitutes the fixed text of malformed_error_msg, which differs
from the remainder bytes of the buffer. -/
theorem C7_counterexample :
    parse_error_packet [0, 5, 0, 1, 65, 66] = some (1, malformed_error_msg) ∧
    malformed_error_msg ≠ [65, 66] := by
  decide

/-- C7 amended: for every Error buffer of at least 5 bytes whose message
bytes contain no zero terminator, parsing succeeds with the wire error
code, but the message is replaced by the fixed text of
malformed_error_msg rather than taken as the remainder of the buffer. -/
theorem C7_amended_fixed_text (c1 c2 : Nat) (rest : List Nat) (hne : rest ≠ [])
    (hz : ∀ b ∈ rest, b ≠ 0) :
    parse_error_packet (0 :: 5 :: c1 :: c2 :: rest) =
      some (c1 * 256 + c2, malformed_error_msg) := by
  have hlen : 0 < rest.length := List.length_pos.mpr hne
  unfold parse_error_packet
  rw [if_neg]
  · have hd4 : (0 :: 5 :: c1 :: c2 :: rest).drop ERROR_HEADER_SIZE = rest := rfl
    rw [hd4, takeUntilZero_eq_none rest hz]
    rfl
  · push_neg
    refine ⟨?_, by simp [get_opcode, TFTP_OPCODE_ERROR]⟩
    simp [ERROR_HEADER_SIZE]
    omega

/-- Witness for the amended C7 at a concrete unterminated buffer. -/
theorem C7_amended_witness :
    ([65, 66] : List Nat) ≠ [] ∧ (∀ b ∈ ([65, 66] : List Nat), b ≠ 0) ∧
    parse_error_packet (0 :: 5 :: 0 :: 2 :: [65, 66]) =
      some (0 * 256 + 2, malformed_error_msg) :=
  ⟨by decide, by decide, C7_amended_fixed_text 0 2 [65, 66] (by decide) (by decide)⟩

/-! ## Client GET loop (tftp_client.cpp, receive_file, lines 55-180)

One iteration of the while loop: a recvfrom outcome (a timeout or socket
error, or a datagram with its source address) is handled against the
mutable state (expected_block_num, the TID captured from the first
datagram, the bytes written so far).  Datagram sends always succeed in
this model; the local file write can fail (disk full), which is an input.
-/

/-- An (ip, port) pair as compared by the C++ source-address checks. -/
abbrev Addr := Nat × Nat

inductive NetEvent where
  /-- recvfrom returned SOCKET_ERROR: a timeout or another receive error,
  both of which take the same abort path in receive_file. -/
  | timeout
  | packet (src : Addr) (bytes : List Nat)
deriving DecidableEq

structure GetState where
  expected : Nat
  tid : Option Addr
  fileContents : List Nat
deriving DecidableEq

inductive GetStep where
  /-- The loop continues waiting (continue, or after an in-order block). -/
  | waiting (s : GetState) (sends : List (Addr × List Nat))
  /-- transfer_complete was set after a short block. -/
  | done (s : GetState) (sends : List (Addr × List Nat))
  /-- The function throws; removesFile records whether remove(local_filename)
  ran on that path. -/
  | abort (sends : List (Addr × List Nat)) (removesFile : Bool)
deriving DecidableEq

def diskFullMsg : List Nat := strBytes "Disk full or write error"
def unexpectedBlockMsg : List Nat := strBytes "Unexpected block number"

/-- Opcode dispatch of receive_file, entered once the source check passed
(dest is the established TID, the destination of every send). -/
def clientGetHandle (writeOk : Bool) (s : GetState) (dest : Addr)
    (bytes : List Nat) : GetStep :=
  if get_opcode bytes = TFTP_OPCODE_DATA then
    match parse_data_packet bytes with
    | none => .waiting s []
    | some (blk, payload) =>
      if blk = s.expected then
        if writeOk = false then
          .abort [(dest, create_error_packet TFTP_ERROR_DISK_FULL diskFullMsg)] true
        else
          if payload.length < MAX_DATA_SIZE then
            .done { s with fileContents := s.fileContents ++ payload }
              [(dest, create_ack_packet blk)]
          else
            .waiting { s with fileContents := s.fileContents ++ payload,
                              expected := (s.expected + 1) % 65536 }
              [(dest, create_ack_packet blk)]
      else if blk < s.expected then
        .waiting s [(dest, create_ack_packet blk)]
      else
        .abort [(dest, create_error_packet TFTP_ERROR_ILLEGAL_OPERATION unexpectedBlockMsg)] true
  else if get_opcode bytes = TFTP_OPCODE_ERROR then
    .abort [] true
  else
    .waiting s []

/-- One iteration of the receive_file loop.  On the first datagram the
source is captured as the server TID before the opcode is examined; on a
later datagram from another source the packet is ignored (continue) with
no reply. -/
def clientGetStep (writeOk : Bool) (s : GetState) (e : NetEvent) : GetStep :=
  match e with
  | .timeout => .abort [] true
  | .packet src bytes =>
    match s.tid with
    | none => clientGetHandle writeOk { s with tid := some src } src bytes
    | some t =>
      if src ≠ t then .waiting s []
      else clientGetHandle writeOk s t bytes

def GetStep.sendList : GetStep → List (Addr × List Nat)
  | .waiting _ sends => sends
  | .done _ sends => sends
  | .abort sends _ => sends

/-- Every send of the step goes to the given address. -/
def sendsOnlyTo (r : GetStep) (a : Addr) : Prop := ∀ p ∈ r.sendList, p.1 = a

/-- When the step leaves a live state, that state's TID equals the given
address; abort outcomes have no surviving state. -/
def GetStep.tidIs : GetStep → Addr → Prop
  | .waiting s _, a => s.tid = some a
  | .done s _, a => s.tid = some a
  | .abort _ _, _ => True

/-- On every abort outcome the partial output file was removed. -/
def GetStep.abortRemoves : GetStep → Prop
  | .abort _ rm => rm = true
  | _ => True

/-! ## Client PUT (tftp_client.cpp, send_file)

Three regions are modelled: the wait for the initial Ack 0 (lines
232-295), the two-recv timeout handling around each Ack wait (lines
327-378), and the handling of a received datagram while awaiting the Ack
of the current block (lines 380-450). -/

inductive Ack0Result where
  /-- Ack 0 received: transfer_started, expect Ack 1 next. -/
  | proceed (tid : Addr)
  /-- recvfrom failed before any datagram: no TID was captured. -/
  | abortNoBind
  /-- A datagram arrived (so server_addr was overwritten with its source
  before the opcode was read) but the transfer aborts. -/
  | abortBound (tid : Addr)
deriving DecidableEq

/-- Wait for Ack 0 after sending the WRQ.  The first datagram's source is
stored as the server TID unconditionally, before its opcode or contents
are examined; an Ack with a nonzero block, a malformed Ack, an Error
packet and any other opcode all abort. -/
def put_await_ack0 (e : NetEvent) : Ack0Result :=
  match e with
  | .timeout => .abortNoBind
  | .packet src bytes =>
    if get_opcode bytes = TFTP_OPCODE_ACK then
      match parse_ack_packet bytes with
      | some a => if a = 0 then .proceed src else .abortBound src
      | none => .abortBound src
    else .abortBound src

def Ack0Result.boundTid : Ack0Result → Option Addr
  | .proceed t => some t
  | .abortBound t => some t
  | .abortNoBind => none

/-- The straight-line timeout handling of one Ack wait in send_file: on a
first timeout the buffered data packet is resent verbatim and recvfrom is
called once more; a second consecutive timeout aborts the transfer.
The argument options are the outcomes of the two possible recvfrom calls
(none is a timeout); resends counts retransmissions of the data packet. -/
inductive PutRecv where
  | received (r : Addr × List Nat) (resends : Nat)
  | abortTimeout (resends : Nat)
deriving DecidableEq

def put_recv_with_retry (first second : Option (Addr × List Nat)) : PutRecv :=
  match first with
  | some r => .received r 0
  | none =>
    match second with
    | some r => .received r 1
    | none => .abortTimeout 1

structure PutState where
  currentBlock : Nat
  lastDataSent : Bool
  tid : Addr
deriving DecidableEq

inductive PutAckResult where
  /-- The awaited Ack arrived; current_block_num was incremented. -/
  | advance (s : PutState)
  /-- continue was executed: the outer while loop runs again, reading the
  next chunk from the file stream and sending it as Data currentBlock. -/
  | resendLoop (s : PutState)
  /-- The function throws (no packet is sent on any of these paths). -/
  | abort
deriving DecidableEq

/-- Handling of one datagram received while awaiting the Ack of
currentBlock.  A wrong-source datagram is treated like a timeout: no
reply is sent, current_block_num is decremented (uint16_t wrap) and
last_data_sent cleared, and control re-enters the outer send loop.  A
duplicate Ack takes the same decrement-and-continue path; an Ack for the
current block advances; everything else aborts. -/
def put_handle_ack (s : PutState) (src : Addr) (bytes : List Nat) : PutAckResult :=
  if src ≠ s.tid then
    .resendLoop { s with currentBlock := (s.currentBlock + 65535) % 65536,
                         lastDataSent := false }
  else if get_opcode bytes = TFTP_OPCODE_ACK then
    match parse_ack_packet bytes with
    | some a =>
      if a = s.currentBlock then
        .advance { s with currentBlock := (s.currentBlock + 1) % 65536 }
      else if a < s.currentBlock then
        .resendLoop { s with currentBlock := (s.currentBlock + 65535) % 65536,
                             lastDataSent := false }
      else .abort
    | none => .abort
  else .abort

/-! ## Server WRQ dispatch and receive loop (tftp_server.cpp,
handle_write_request, lines 313-473) -/

def fileExistsMsg : List Nat := strBytes "File already exists"
def cannotWriteMsg : List Nat := strBytes "Cannot write file"
def malformedDataMsg : List Nat := strBytes "Malformed DATA packet"
def unexpectedTypeMsg : List Nat := strBytes "Unexpected packet type"

inductive WrqDispatch where
  | refuseExists (pkt : List Nat)
  | refuseCreate (pkt : List Nat)
  /-- The opening Ack 0 is sent and the receive loop starts with
  expected_block_num one. -/
  | startTransfer (firstSend : List Nat) (expected : Nat)
deriving DecidableEq

/-- The dispatch prefix of handle_write_request: refuse an existing file
with Error FileAlreadyExists, refuse an uncreatable file with Error
AccessViolation, otherwise send Ack 0 and enter the receive loop. -/
def handle_write_request (fileExists canCreate : Bool) : WrqDispatch :=
  if fileExists then
    .refuseExists (create_error_packet TFTP_ERROR_FILE_ALREADY_EXISTS fileExistsMsg)
  else if canCreate = false then
    .refuseCreate (create_error_packet TFTP_ERROR_ACCESS_VIOLATION cannotWriteMsg)
  else
    .startTransfer (create_ack_packet 0) 1

structure WrqState where
  expected : Nat
  clientAddr : Addr
  fileContents : List Nat
deriving DecidableEq

inductive WrqStep where
  | waiting (s : WrqState) (sends : List (Addr × List Nat))
  | done (s : WrqState) (sends : List (Addr × List Nat))
  | abort (sends : List (Addr × List Nat)) (removesFile : Bool)
deriving DecidableEq

/-- One iteration of the handle_write_request receive loop.  recvfrom
overwrites client_addr with the datagram's source (there is no source
check), so replies go to the sender of the last datagram; a timeout
aborts at once without resending anything; a malformed Data packet, a
block number above the expected one and an unexpected opcode reply with
an Error packet and abort; a received Error packet aborts silently; all
abort paths remove the partially written file. -/
def serverWrqStep (writeOk : Bool) (s : WrqState) (e : NetEvent) : WrqStep :=
  match e with
  | .timeout => .abort [] true
  | .packet src bytes =>
    if get_opcode bytes = TFTP_OPCODE_DATA then
      match parse_data_packet bytes with
      | none =>
        .abort [(src, create_error_packet TFTP_ERROR_ILLEGAL_OPERATION malformedDataMsg)] true
      | some (blk, payload) =>
        if blk = s.expected then
          if writeOk = false then
            .abort [(src, create_error_packet TFTP_ERROR_DISK_FULL diskFullMsg)] true
          else
            if payload.length < MAX_DATA_SIZE then
              .done { s with clientAddr := src,
                             fileContents := s.fileContents ++ payload }
                [(src, create_ack_packet blk)]
            else
              .waiting { s with clientAddr := src,
                                fileContents := s.fileContents ++ payload,
                                expected := (s.expected + 1) % 65536 }
                [(src, create_ack_packet blk)]
        else if blk < s.expected then
          .waiting { s with clientAddr := src } [(src, create_ack_packet blk)]
        else
          .abort [(src, create_error_packet TFTP_ERROR_ILLEGAL_OPERATION unexpectedBlockMsg)] true
    else if get_opcode bytes = TFTP_OPCODE_ERROR then
      .abort [] true
    else
      .abort [(src, create_error_packet TFTP_ERROR_ILLEGAL_OPERATION unexpectedTypeMsg)] true

/-- On every abort outcome the partial output file was removed. -/
def WrqStep.abortRemoves : WrqStep → Prop
  | .abort _ rm => rm = true
  | _ => True

/-! ## Server RRQ Ack wait (tftp_server.cpp, handle_read_request, lines
208-301) -/

inductive SrvEvent where
  | timeout
  | packet (bytes : List Nat)
deriving DecidableEq

inductive RrqWait where
  /-- The Ack for the current block arrived; the retry loop exits. -/
  | ackd
  /-- retry_count reached MAX_RETRIES: the transfer aborts. -/
  | abortTimeout
  /-- An Ack for a block beyond the current one: protocol error, abort. -/
  | abortProto
  /-- An Error packet from the client: the transfer returns cleanly. -/
  | peerError
  /-- The event sequence ran out while the loop was still waiting. -/
  | starved
deriving DecidableEq

/-- The retry loop awaiting the Ack of the given block, against a sequence
of recvfrom outcomes.  Each timeout increments retry_count and resends the
buffered data packet verbatim (recorded in the returned send list), and the
loop aborts once retry_count reaches MAX_RETRIES; an old Ack, a malformed
Ack and an unexpected opcode are ignored without touching retry_count and
without resending anything. -/
def rrq_await (block : Nat) (dataPkt : List Nat) :
    List SrvEvent → Nat → RrqWait × List (List Nat)
  | [], _ => (.starved, [])
  | .timeout :: rest, retry =>
    if MAX_RETRIES ≤ retry + 1 then (.abortTimeout, [dataPkt])
    else
      ((rrq_await block dataPkt rest (retry + 1)).1,
        dataPkt :: (rrq_await block dataPkt rest (retry + 1)).2)
  | .packet bytes :: rest, retry =>
    if get_opcode bytes = TFTP_OPCODE_ACK then
      match parse_ack_packet bytes with
      | some a =>
        if a = block then (.ackd, [])
        else if a < block then rrq_await block dataPkt rest retry
        else (.abortProto, [])
      | none => rrq_await block dataPkt rest retry
    else if get_opcode bytes = TFTP_OPCODE_ERROR then (.peerError, [])
    else rrq_await block dataPkt rest retry

/-! ## Claim theorems over the state machines -/

/-- C1 counterexample: a Data datagram from source (2,2) while the bound
TID is (1,1) is dropped with no reply at all — in particular no
Error(UnknownTransferID) is sent to the wrong source. -/
theorem C1_counterexample :
    clientGetStep true ⟨1, some (1, 1), []⟩ (.packet (2, 2) (0 :: 3 :: 0 :: 1 :: [7])) =
      .waiting ⟨1, some (1, 1), []⟩ [] := by
  decide

/-- C1 amended: a datagram from a source distinct from the bound peer TID
never elicits any packet to that source.  In client GET it is ignored with
the state unchanged and the transfer keeps waiting; in client PUT it is
conflated with a timeout: the current block number is decremented
(uint16_t wrap) and the Data packet is resent by the outer loop. -/
theorem C1_amended_wrong_source_silent :
    (∀ writeOk s t src bytes, s.tid = some t → src ≠ t →
      clientGetStep writeOk s (.packet src bytes) = .waiting s []) ∧
    (∀ s src bytes, src ≠ s.tid →
      put_handle_ack s src bytes =
        .resendLoop { s with currentBlock := (s.currentBlock + 65535) % 65536,
                             lastDataSent := false }) := by
  constructor
  · intro writeOk s t src bytes ht hne
    simp [clientGetStep, ht, hne]
  · intro s src bytes hne
    simp [put_handle_ack, hne]

/-- Witness for the amended C1 at a concrete wrong-source Ack. -/
theorem C1_amended_witness :
    ((2, 2) : Addr) ≠ (⟨5, false, (1, 1)⟩ : PutState).tid ∧
    put_handle_ack ⟨5, false, (1, 1)⟩ (2, 2) (create_ack_packet 5) =
      .resendLoop { currentBlock := (5 + 65535) % 65536, lastDataSent := false,
                    tid := (1, 1) } :=
  ⟨by decide,
   C1_amended_wrong_source_silent.2 ⟨5, false, (1, 1)⟩ (2, 2) (create_ack_packet 5)
     (by decide)⟩

/-- C2 counterexample: the client GET await aborts on the very first
timeout, with no retransmission of any packet, so the single
retransmit-up-to-five-attempts policy does not govern it. -/
theorem C2_counterexample :
    clientGetStep true ⟨1, some (1, 1), []⟩ .timeout = .abort [] true := rfl

/-- C2 amended: the four awaits are governed by different policies.  The
client GET await and the server WRQ await abort on the first timeout
without retransmitting anything; the client PUT Ack wait retransmits the
Data packet once and aborts on a second consecutive timeout; only the
server RRQ Ack wait retransmits on each timeout, up to MAX_RETRIES
timeouts before aborting. -/
theorem C2_amended_timeout_policies :
    (∀ writeOk s, clientGetStep writeOk s .timeout = .abort [] true) ∧
    (∀ writeOk s, serverWrqStep writeOk s .timeout = .abort [] true) ∧
    (∀ r snd, put_recv_with_retry (some r) snd = .received r 0) ∧
    (∀ r, put_recv_with_retry none (some r) = .received r 1) ∧
    (put_recv_with_retry none none = .abortTimeout 1) ∧
    (∀ blk dp, rrq_await blk dp (List.replicate MAX_RETRIES .timeout) 0 =
      (.abortTimeout, List.replicate MAX_RETRIES dp)) ∧
    (∀ dp, rrq_await 1 dp
      (List.replicate 4 .timeout ++ [.packet (create_ack_packet 1)]) 0 =
      (.ackd, List.replicate 4 dp)) := by
  refine ⟨fun _ _ => rfl, fun _ _ => rfl, fun _ _ => rfl, fun _ => rfl, rfl, ?_, ?_⟩
  · intro blk dp
    rfl
  · intro dp
    rfl

/-- C4: evaluated at the failing input, the client PUT side receives the
duplicate Ack 1 from the bound TID while awaiting Ack 2 and, instead of
ignoring it, decrements the current block and re-enters the outer send
loop, which re-reads the file stream and resends a Data packet; the
server RRQ side conforms: it ignores the old Ack without resending and
keeps waiting for the correct one. -/
theorem C4_duplicate_ack_evaluation :
    put_handle_ack ⟨2, false, (1, 1)⟩ (1, 1) (create_ack_packet 1) =
      .resendLoop ⟨1, false, (1, 1)⟩ ∧
    rrq_await 2 [9, 9] [.packet (create_ack_packet 1), .packet (create_ack_packet 2)] 0 =
      (.ackd, []) := by
  constructor <;> decide

/-- C8: for a WriteRequest the server refuses an existing file with
Error(FileAlreadyExists), refuses an uncreatable file with
Error(AccessViolation), and otherwise its opening move is Ack 0 followed
by the reader loop expecting Data block 1; the sent buffers decode to the
claimed packets. -/
theorem C8_wrq_dispatch :
    (∀ canCreate, handle_write_request true canCreate =
      .refuseExists (create_error_packet TFTP_ERROR_FILE_ALREADY_EXISTS fileExistsMsg)) ∧
    parse (create_error_packet TFTP_ERROR_FILE_ALREADY_EXISTS fileExistsMsg) =
      some (.error 6 fileExistsMsg) ∧
    handle_write_request false false =
      .refuseCreate (create_error_packet TFTP_ERROR_ACCESS_VIOLATION cannotWriteMsg) ∧
    parse (create_error_packet TFTP_ERROR_ACCESS_VIOLATION cannotWriteMsg) =
      some (.error 2 cannotWriteMsg) ∧
    handle_write_request false true = .startTransfer (create_ack_packet 0) 1 ∧
    parse (create_ack_packet 0) = some (.ack 0) := by
  refine ⟨fun _ => rfl, by decide, rfl, by decide, rfl, by decide⟩

theorem clientGetHandle_abortRemoves (writeOk : Bool) (s : GetState) (d : Addr)
    (bytes : List Nat) : (clientGetHandle writeOk s d bytes).abortRemoves := by
  unfold clientGetHandle
  repeat' split
  all_goals trivial

/-- C9: on the receiving side (client GET, server WRQ) every abort
outcome of a loop iteration — timeout or socket error, local write
failure, received Error packet, or protocol error — removes the partially
written output file. -/
theorem C9_abort_removes_partial_file :
    (∀ writeOk s e, (clientGetStep writeOk s e).abortRemoves) ∧
    (∀ writeOk s e, (serverWrqStep writeOk s e).abortRemoves) := by
  constructor
  · intro writeOk s e
    cases e with
    | timeout => exact rfl
    | packet src bytes =>
      rcases h : s.tid with _ | t
      · simpa [clientGetStep, h] using
          clientGetHandle_abortRemoves writeOk { s with tid := some src } src bytes
      · by_cases hsrc : src ≠ t
        · simp [clientGetStep, h, hsrc, GetStep.abortRemoves]
        · simpa [clientGetStep, h, hsrc] using
            clientGetHandle_abortRemoves writeOk s t bytes
  · intro writeOk s e
    cases e with
    | timeout => exact rfl
    | packet src bytes =>
      simp only [serverWrqStep]
      repeat' split
      all_goals trivial

/-- Every surviving state of a put_handle_ack outcome carries the given
address as its TID; the abort outcome has no surviving state. -/
def PutAckResult.tidPreserved : PutAckResult → Addr → Prop
  | .advance s, a => s.tid = a
  | .resendLoop s, a => s.tid = a
  | .abort, _ => True

theorem clientGetHandle_tid_sends (writeOk : Bool) (s : GetState) (d : Addr)
    (bytes : List Nat) (h : s.tid = some d) :
    (clientGetHandle writeOk s d bytes).tidIs d ∧
    sendsOnlyTo (clientGetHandle writeOk s d bytes) d := by
  unfold clientGetHandle
  repeat' split
  all_goals refine ⟨?_, ?_⟩ <;>
    simp [GetStep.tidIs, sendsOnlyTo, GetStep.sendList, h]

/-- C10: in the client the peer TID is bound exactly once, to the source
of the very first datagram, before that datagram's opcode or contents are
examined — in PUT even an Error sender or garbage sender becomes the
bound TID — the TID of any surviving state never changes afterwards (in
GET across every loop iteration, in PUT across every outcome of the Ack
handling after binding), all replies go to the bound TID, and in GET a
later datagram from another source is dropped with no reply and no state
change. -/
theorem C10_tid_bound_once :
    (∀ writeOk s src bytes, s.tid = none →
      (clientGetStep writeOk s (.packet src bytes)).tidIs src ∧
      sendsOnlyTo (clientGetStep writeOk s (.packet src bytes)) src) ∧
    (∀ writeOk s t src bytes, s.tid = some t →
      (clientGetStep writeOk s (.packet src bytes)).tidIs t) ∧
    (∀ writeOk s t src bytes, s.tid = some t → src ≠ t →
      clientGetStep writeOk s (.packet src bytes) = .waiting s []) ∧
    (∀ src bytes, (put_await_ack0 (.packet src bytes)).boundTid = some src) ∧
    (∀ s src bytes, (put_handle_ack s src bytes).tidPreserved s.tid) := by
  refine ⟨?_, ?_, ?_, ?_, ?_⟩
  · intro writeOk s src bytes h
    simpa [clientGetStep, h] using
      clientGetHandle_tid_sends writeOk { s with tid := some src } src bytes rfl
  · intro writeOk s t src bytes h
    by_cases hsrc : src ≠ t
    · simp [clientGetStep, h, hsrc, GetStep.tidIs]
    · simpa [clientGetStep, h, hsrc] using
        (clientGetHandle_tid_sends writeOk s t bytes h).1
  · intro writeOk s t src bytes h hne
    simp [clientGetStep, h, hne]
  · intro src bytes
    simp only [put_await_ack0]
    repeat' split
    all_goals rfl
  · intro s src bytes
    simp only [put_handle_ack]
    repeat' split
    all_goals trivial

/-- Witness for C10: the first datagram is an Error packet, and its sender
still becomes the bound TID, with every reply addressed to it. -/
theorem C10_witness :
    (⟨1, none, []⟩ : GetState).tid = none ∧
    ((clientGetStep true ⟨1, none, []⟩
        (.packet (3, 3) (create_error_packet 0 []))).tidIs (3, 3) ∧
      sendsOnlyTo (clientGetStep true ⟨1, none, []⟩
        (.packet (3, 3) (create_error_packet 0 []))) (3, 3)) :=
  ⟨rfl, C10_tid_bound_once.1 true ⟨1, none, []⟩ (3, 3) (create_error_packet 0 []) rfl⟩
